import Mathlib

/-!
Verification of the dental-guide manufacturing core: a shallow embedding of
`core/guide_generator.py`, `core/mesh_preprocess.py`, `core/manufacturing_qc.py`,
`validation_suite/metrics/accuracy.py` and `validation_suite/runner.py`,
together with theorems settling the specified behavioural claims.

Modelling conventions:
* A fallible external call (a VTK filter run, a boolean kernel invocation,
  a filesystem write) is a function into `Except Unit _`; `Except.error ()`
  is a raised Python exception.
* Python `None` is `Option.none`; a mesh is an opaque value of a type
  parameter `M` with an observable point count.
* Python floats are modelled as exact rationals (`ℚ`), with `math.sqrt`
  and `math.dist` landing in `ℝ` via `Real.sqrt`. `round(x, 3)` is modelled
  with Mathlib's `round` (half-to-even tie-breaking of Python `round` is
  immaterial to every property proved here).
-/

namespace DentalGuide

/-- Environment of external effects seen by `robust_boolean_difference`
(`core/guide_generator.py`): the preprocessing call, the boolean kernel in a
given operand order, the point-count observation used by
`_is_non_empty_polydata`, whether `_serialize_polydata` succeeds for each
operand (it is wrapped in try/except, so failure only omits the artifact),
and whether directory creation / text-file writes succeed (`mkdir`,
`write_text` are NOT wrapped and raise on failure). -/
structure BoolEnv (M : Type) where
  numPoints : M → Nat
  pp : M → Except Unit M
  boolOp : M → M → Except Unit (Option M)
  serializeBase : Bool
  serializeSub : Bool
  fsOk : Bool

/-- `_is_non_empty_polydata` (guide_generator.py line 39): non-absent and at
least one point. -/
def isNonEmptyPolydata {M : Type} (numPoints : M → Nat) : Option M → Bool
  | none => false
  | some m => decide (0 < numPoints m)

/-- `_save_failure_bundle` (guide_generator.py lines 56-79): creates the
timestamped bundle directory, best-effort serializes both meshes (failures
are swallowed and just omit the artifact), then writes `params.json` and
`snapshot.log` with unguarded `write_text` calls.  Returns the artifacts
dictionary as association pairs (artifact key, file name inside the bundle
directory).  `mkdir` and `write_text` raise when the filesystem fails, and
nothing in `_save_failure_bundle` catches that. -/
def saveFailureBundle {M : Type} (env : BoolEnv M) (_base _subtract : M)
    (_strategy : String) (_attempts : List String) (_reason : String) :
    Except Unit (List (String × String)) :=
  if env.fsOk then
    Except.ok
      (((if env.serializeBase then [("base_mesh", "base.vtp")] else []) ++
        (if env.serializeSub then [("subtract_mesh", "subtract.vtp")] else [])) ++
       [("params", "params.json"), ("snapshot", "snapshot.log")])
  else
    Except.error ()

/-- The dictionary returned by `robust_boolean_difference`, flattened:
`guide_polydata`, and the `debug_parts` fields `preprocessed`, `attempts`,
`failure_artifacts`, `fallback_mode`, `reason`, plus `status`. -/
structure BoolDiffResult (M : Type) where
  guidePolydata : Option M
  preprocessed : Bool
  attempts : List String
  failureArtifacts : List (String × String)
  fallbackMode : Option String
  reason : Option String
  status : String

/-- Reason string used on the fallback path (guide_generator.py line 140). -/
def fallbackReason : String :=
  "Boolean operation failed in both operand orders; channel-only fallback activated."

/-- Fallback tail of `robust_boolean_difference` (lines 140-154): the bundle
write is NOT inside a try block, so a filesystem error propagates out. -/
def fallbackReturn {M : Type} (env : BoolEnv M) (basePp subPp : M)
    (preprocessed : Bool) (attempts : List String) :
    Except Unit (BoolDiffResult M) :=
  match saveFailureBundle env basePp subPp "channel-only" attempts fallbackReason with
  | Except.error e => Except.error e
  | Except.ok artifacts =>
      Except.ok
        { guidePolydata := some basePp
          preprocessed := preprocessed
          attempts := attempts
          failureArtifacts := artifacts
          fallbackMode := some "channel_only"
          reason := some fallbackReason
          status := "fallback" }

/-- Second `try` block of `robust_boolean_difference` (lines 132-138): the
reversed attempt.  The label is appended AFTER `_attempt_boolean_difference`
returns, still inside the `try`, so a raising attempt appends nothing. -/
def secondAttempt {M : Type} (env : BoolEnv M) (basePp subPp : M)
    (preprocessed : Bool) (attempts1 : List String) :
    Except Unit (BoolDiffResult M) :=
  match env.boolOp subPp basePp with
  | Except.error _ => fallbackReturn env basePp subPp preprocessed attempts1
  | Except.ok out =>
      let result := if isNonEmptyPolydata env.numPoints out then out else none
      let attempts2 := attempts1 ++ ["subtract-minus-base"]
      if isNonEmptyPolydata env.numPoints result then
        Except.ok
          { guidePolydata := result
            preprocessed := preprocessed
            attempts := attempts2
            failureArtifacts := []
            fallbackMode := none
            reason := none
            status := "success" }
      else
        fallbackReturn env basePp subPp preprocessed attempts2

/-- First `try` block of `robust_boolean_difference` (lines 124-130), then
the rest.  As in the source, the attempt label is appended after the call
returns, inside the `try`. -/
def firstAttempt {M : Type} (env : BoolEnv M) (basePp subPp : M)
    (preprocessed : Bool) : Except Unit (BoolDiffResult M) :=
  match env.boolOp basePp subPp with
  | Except.error _ => secondAttempt env basePp subPp preprocessed []
  | Except.ok out =>
      let result := if isNonEmptyPolydata env.numPoints out then out else none
      let attempts1 := ["base-minus-subtract"]
      if isNonEmptyPolydata env.numPoints result then
        Except.ok
          { guidePolydata := result
            preprocessed := preprocessed
            attempts := attempts1
            failureArtifacts := []
            fallbackMode := none
            reason := none
            status := "success" }
      else
        secondAttempt env basePp subPp preprocessed attempts1

/-- `robust_boolean_difference` (guide_generator.py lines 96-154).  The
preprocessing of BOTH operands sits in one `try`: if either call raises,
both operands revert to their raw values and `preprocessed` stays false. -/
def robustBooleanDifference {M : Type} (env : BoolEnv M)
    (base subtract : Option M) : Except Unit (BoolDiffResult M) :=
  match base, subtract with
  | none, _ =>
      Except.ok
        { guidePolydata := none
          preprocessed := false
          attempts := []
          failureArtifacts := []
          fallbackMode := none
          reason := some "Input mesh missing for boolean difference."
          status := "failed" }
  | some _, none =>
      Except.ok
        { guidePolydata := none
          preprocessed := false
          attempts := []
          failureArtifacts := []
          fallbackMode := none
          reason := some "Input mesh missing for boolean difference."
          status := "failed" }
  | some b, some s =>
      let pre : M × M × Bool :=
        match env.pp b with
        | Except.error _ => (b, s, false)
        | Except.ok b2 =>
            match env.pp s with
            | Except.error _ => (b, s, false)
            | Except.ok s2 => (b2, s2, true)
      firstAttempt env pre.1 pre.2.1 pre.2.2

/-!
### Mesh preprocessor (`core/mesh_preprocess.py`)

`preprocess_for_boolean` runs six VTK stages, each wrapped in its own
`try/except Exception: pass`; a failing stage leaves `output` at the last
good mesh.  The VTK kernel is opaque, so each stage is an arbitrary
fallible function `M → Except Unit M`.
-/

/-- One `try: output = stage(output) except Exception: pass` step from
`preprocess_for_boolean` (mesh_preprocess.py lines 67-117). -/
def runStage {M : Type} (m : M) (stage : M → Except Unit M) : M :=
  match stage m with
  | Except.ok m2 => m2
  | Except.error _ => m

/-- The six VTK stage calls of `preprocess_for_boolean`, in source order:
triangle filter, clean, fill holes (size 2.0), normals (auto-orient,
consistency, no splitting), largest-region connectivity + geometry filter,
decimate (target reduction 0.10, topology preserved). -/
structure PreprocessKernel (M : Type) where
  triangulate : M → Except Unit M
  clean : M → Except Unit M
  fillHoles : M → Except Unit M
  recomputeNormals : M → Except Unit M
  connectivity : M → Except Unit M
  decimate : M → Except Unit M

/-- Stage list of `preprocess_for_boolean` in execution order. -/
def kernelStages {M : Type} (k : PreprocessKernel M) : List (M → Except Unit M) :=
  [k.triangulate, k.clean, k.fillHoles, k.recomputeNormals, k.connectivity, k.decimate]

/-- `preprocess_for_boolean` (mesh_preprocess.py lines 46-119): `None` input,
or an absent VTK kernel (`vtk is None`), returns the input unchanged;
otherwise each stage is applied best-effort in order. -/
def preprocessForBoolean {M : Type} (k : Option (PreprocessKernel M))
    (polydata : Option M) : Option M :=
  match polydata, k with
  | none, _ => none
  | some m, none => some m
  | some m, some kk => some (List.foldl runStage m (kernelStages kk))

/-!
### Manufacturing QC battery (`core/manufacturing_qc.py`)
-/

/-- `round(x, 3)` on a rational value. -/
def roundTo3 (x : ℚ) : ℚ := (round (x * 1000) : ℤ) / 1000

/-- `round(x, 3)` on a real value (used for the reported collision
distance, which comes out of `math.dist`). -/
noncomputable def roundTo3R (x : ℝ) : ℝ := ((round (x * 1000) : ℤ) : ℝ) / 1000

/-- A 3D coordinate triple. -/
abbrev Vec3 := ℚ × ℚ × ℚ

/-- `math.dist` on two 3D points: the Euclidean distance. -/
noncomputable def mathDist (p q : Vec3) : ℝ :=
  Real.sqrt (((p.1 - q.1 : ℚ) : ℝ) ^ 2 + ((p.2.1 - q.2.1 : ℚ) : ℝ) ^ 2 +
    ((p.2.2 - q.2.2 : ℚ) : ℝ) ^ 2)

/-- An implant dictionary as read by `sleeve_collision_check`: the
`position` key (default `[0.0, 0.0, 0.0]`) and the `sleeve_radius_mm` key
(default `2.5`). -/
structure Implant where
  position : Option Vec3
  sleeveRadiusMm : Option ℚ
deriving DecidableEq

instance : Inhabited Implant := ⟨⟨none, none⟩⟩

/-- `implants[i].get("position", [0.0, 0.0, 0.0])`. -/
def Implant.pos (imp : Implant) : Vec3 := imp.position.getD (0, 0, 0)

/-- `float(implants[i].get("sleeve_radius_mm", 2.5))`. -/
def Implant.radius (imp : Implant) : ℚ := imp.sleeveRadiusMm.getD (5 / 2)

/-- One entry of the `collisions` list: indices of the pair and the rounded
center distance. -/
structure Collision where
  implantA : Nat
  implantB : Nat
  distance : ℝ

open Classical in
/-- The double loop of `sleeve_collision_check` (manufacturing_qc.py lines
42-50): for each `i`, for each `j` in `i+1 .. len-1`, record the pair when
the center distance is below the sum of the sleeve radii. -/
noncomputable def collisionList (implants : List Implant) : List Collision :=
  (List.range implants.length).flatMap (fun i =>
    ((List.range implants.length).drop (i + 1)).filterMap (fun j =>
      let p1 := (implants.getD i default).pos
      let r1 := (implants.getD i default).radius
      let p2 := (implants.getD j default).pos
      let r2 := (implants.getD j default).radius
      if mathDist p1 p2 < ((r1 + r2 : ℚ) : ℝ) then
        some ⟨i, j, roundTo3R (mathDist p1 p2)⟩
      else
        none))

/-- Result of `sleeve_collision_check`. -/
structure SleeveResult where
  passes : Bool
  collisions : List Collision

/-- `sleeve_collision_check` (manufacturing_qc.py lines 36-55): `implants or
[]`, then the pairwise center-distance check; passes iff no collision was
recorded. -/
noncomputable def sleeveCollisionCheck (implants : Option (List Implant)) : SleeveResult :=
  let imps := implants.getD []
  let cols := collisionList imps
  ⟨decide (cols.length = 0), cols⟩

/-- The six-tuple returned by `GetBounds`. -/
structure PolyBounds where
  x0 : ℚ
  x1 : ℚ
  y0 : ℚ
  y1 : ℚ
  z0 : ℚ
  z1 : ℚ

/-- A mesh as observed by the QC battery: its `GetBounds` answer (absent
when the object has no usable bounds) and the outcome of the VTK point-
normal computation used by `undercut_detection` (which may raise, return no
normal array, or return the per-point normal tuples). -/
structure QCMesh where
  bounds : Option PolyBounds
  pointNormals : Except Unit (Option (List Vec3))

/-- `_polydata_bounds` (manufacturing_qc.py lines 15-20): all-zero bounds
for an absent mesh or one without usable bounds. -/
def polydataBounds (polydata : Option QCMesh) : PolyBounds :=
  match polydata with
  | none => ⟨0, 0, 0, 0, 0, 0⟩
  | some m =>
      match m.bounds with
      | none => ⟨0, 0, 0, 0, 0, 0⟩
      | some b => b

/-- Result of `minimum_thickness`. -/
structure ThicknessResult where
  minimumThicknessMm : ℚ
  passes : Bool
deriving DecidableEq

/-- `minimum_thickness` (manufacturing_qc.py lines 23-33): smallest strictly
positive bounding-box extent (0.0 when none is positive), rounded to three
digits for the report; passes iff the unrounded value is at least 1.5. -/
def minimumThickness (polydata : Option QCMesh) : ThicknessResult :=
  let b := polydataBounds polydata
  let dims : List ℚ := [|b.x1 - b.x0|, |b.y1 - b.y0|, |b.z1 - b.z0|]
  let dimsNonZero := dims.filter (fun d => decide (0 < d))
  let estimatedMin : ℚ := (dimsNonZero.min?).getD 0
  ⟨roundTo3 estimatedMin, decide ((3 / 2 : ℚ) ≤ estimatedMin)⟩

/-- Result of `undercut_detection`. -/
structure UndercutResult where
  undercutRisk : ℚ
  passes : Bool
deriving DecidableEq

/-- `undercut_detection` (manufacturing_qc.py lines 58-84): risk 0.0 and
pass when VTK or the mesh is absent, when the normal computation raises,
when no normal array exists or it is empty; otherwise the fraction of
normals with z-component below -0.2, passing iff the fraction is below
0.35. -/
def undercutDetection (vtkAvailable : Bool) (polydata : Option QCMesh) : UndercutResult :=
  match vtkAvailable, polydata with
  | false, _ => ⟨0, true⟩
  | true, none => ⟨0, true⟩
  | true, some m =>
      match m.pointNormals with
      | Except.error _ => ⟨0, true⟩
      | Except.ok none => ⟨0, true⟩
      | Except.ok (some tuples) =>
          if tuples.length = 0 then ⟨0, true⟩
          else
            let backward := (tuples.filter (fun t => decide (t.2.2 < -(1 / 5)))).length
            let risk : ℚ := (backward : ℚ) / (tuples.length : ℚ)
            ⟨roundTo3 risk, decide (risk < 7 / 20)⟩

/-- Result of `printable_orientation_score`. -/
structure OrientationResult where
  score : ℚ
  passes : Bool
deriving DecidableEq

/-- `printable_orientation_score` (manufacturing_qc.py lines 87-105):
footprint score capped at 1.0 at 600 mm^2, slenderness penalty beyond 1.2
over a 1.8-wide band, combined score clamped to [0, 1]; the reported score
is rounded to three digits, and passing compares the unrounded score with
0.6. -/
def printableOrientationScore (polydata : Option QCMesh) : OrientationResult :=
  let b := polydataBounds polydata
  let width := max |b.x1 - b.x0| (1 / 1000000)
  let depth := max |b.y1 - b.y0| (1 / 1000000)
  let height := max |b.z1 - b.z0| (1 / 1000000)
  let footprint := width * depth
  let slenderness := height / max width depth
  let footprintScore := min 1 (footprint / 600)
  let slendernessPenalty := min 1 (max 0 ((slenderness - 6 / 5) / (9 / 5)))
  let score := max 0 (min 1 (footprintScore * (1 - (1 / 2) * slendernessPenalty)))
  ⟨roundTo3 score, decide ((3 / 5 : ℚ) ≤ score)⟩

/-- The dictionary returned by `qc_summary`. -/
structure QCSummary where
  minimumThicknessPart : ThicknessResult
  sleeveCollision : SleeveResult
  undercut : UndercutResult
  printableOrientation : OrientationResult
  passes : Bool

/-- `qc_summary` (manufacturing_qc.py lines 108-129): the four checks run
independently; the overall flag is their conjunction. -/
noncomputable def qcSummary (vtkAvailable : Bool) (polydata : Option QCMesh)
    (implants : Option (List Implant)) : QCSummary :=
  let thickness := minimumThickness polydata
  let sleeve := sleeveCollisionCheck implants
  let undercut := undercutDetection vtkAvailable polydata
  let orientation := printableOrientationScore polydata
  ⟨thickness, sleeve, undercut, orientation,
    thickness.passes && sleeve.passes && undercut.passes && orientation.passes⟩

/-!
### Accuracy and safety metrics (`validation_suite/metrics/accuracy.py`)
-/

/-- An implant record as read by `compute_implant_deviation` and produced
by `_pseudo_planned_implants`: a dictionary whose `x`, `y`, `z` keys are
read with `.get(key, 0.0)`. -/
structure Coord3 where
  xVal : Option ℚ
  yVal : Option ℚ
  zVal : Option ℚ
deriving DecidableEq

instance : Inhabited Coord3 := ⟨⟨none, none, none⟩⟩

/-- `float(p.get("x", 0.0))`. -/
def Coord3.gx (c : Coord3) : ℚ := c.xVal.getD 0

/-- `float(p.get("y", 0.0))`. -/
def Coord3.gy (c : Coord3) : ℚ := c.yVal.getD 0

/-- `float(p.get("z", 0.0))`. -/
def Coord3.gz (c : Coord3) : ℚ := c.zVal.getD 0

/-- An argument that is either an actual Python list or some non-list
value (`compute_implant_deviation` checks `isinstance(·, list)`). -/
inductive PyList (α : Type) where
  | lst (xs : List α)
  | nonlist
deriving DecidableEq

/-- The squared 3D distance accumulated for one index pair in
`compute_implant_deviation` (accuracy.py lines 24-31). -/
def sqDist3 (p g : Coord3) : ℚ :=
  (p.gx - g.gx) ^ 2 + (p.gy - g.gy) ^ 2 + (p.gz - g.gz) ^ 2

/-- `compute_implant_deviation` (accuracy.py lines 9-33): 0.0 for a
non-list or empty argument; otherwise the root of the mean squared
centroid distance over index pairs up to the shorter length. -/
noncomputable def computeImplantDeviation (plan groundTruth : PyList Coord3) : ℝ :=
  match plan, groundTruth with
  | PyList.nonlist, _ => 0
  | _, PyList.nonlist => 0
  | PyList.lst p, PyList.lst g =>
      if p = [] ∨ g = [] then 0
      else
        let count := min p.length g.length
        if count = 0 then 0
        else
          let errorSum : ℚ :=
            ((List.range count).map (fun idx => sqDist3 (p.getD idx default) (g.getD idx default))).sum
          Real.sqrt ((errorSum : ℝ) / (count : ℝ))

/-- The dictionary returned by `compute_safety_margin` (accuracy.py lines
36-44). -/
structure SafetyMargin where
  minDistance : ℚ
  safetyMargin : ℚ
  isSafe : Bool
deriving DecidableEq

/-- `compute_safety_margin`: fixed 2.0 mm clearance. -/
def computeSafetyMargin (minDistance : ℚ) : SafetyMargin :=
  ⟨minDistance, max (minDistance - 2) 0, decide ((2 : ℚ) ≤ minDistance)⟩

/-!
### Validation runner (`validation_suite/runner.py`)

`hashlib.md5` is an external library; the integer value of the first 8 hex
digits of the digest is abstracted as a function `String → ℕ` supplied as a
parameter (every property proved below holds for an arbitrary such
function, hence in particular for the real MD5 prefix).  The wall clock
read by `time.perf_counter` is likewise an input: each case execution is
given the elapsed-millisecond value the two timer reads produce.
-/

/-- `_stable_seed` (runner.py lines 18-20) with the integer value of the
first 8 hex digits of the `hashlib.md5` digest abstracted as `md5Hex8`. -/
def stableSeed (md5Hex8 : String → ℕ) (caseId : String) : ℕ :=
  md5Hex8 caseId

/-- `_pseudo_planned_implants` (runner.py lines 23-40): empty plan for an
empty ground truth; otherwise every ground-truth implant is shifted by the
same seed-derived offset (`0.2*sign + jitter/10`, `0.1*sign`, `0.15*sign`
with `jitter = (seed % 8)/10` and `sign = -1` iff the seed is odd). -/
def pseudoPlannedImplants (md5Hex8 : String → ℕ) (groundTruth : List Coord3)
    (caseId : String) : List Coord3 :=
  if groundTruth = [] then []
  else
    let seed := stableSeed md5Hex8 caseId
    let jitter : ℚ := ((seed % 8 : ℕ) : ℚ) / 10
    let sign : ℚ := if seed % 2 = 0 then 1 else -1
    groundTruth.map (fun implant =>
      ⟨some (implant.gx + (1 / 5) * sign + jitter / 10),
       some (implant.gy + (1 / 10) * sign),
       some (implant.gz + (3 / 20) * sign)⟩)

/-- The `jitter` value of `_pseudo_planned_implants`: `(seed % 8) / 10.0`. -/
def plannerJitter (md5Hex8 : String → ℕ) (caseId : String) : ℚ :=
  ((stableSeed md5Hex8 caseId % 8 : ℕ) : ℚ) / 10

/-- The `sign` value of `_pseudo_planned_implants`: `-1 if seed % 2 else 1`. -/
def plannerSign (md5Hex8 : String → ℕ) (caseId : String) : ℚ :=
  if stableSeed md5Hex8 caseId % 2 = 0 then 1 else -1

/-- One case directory as `load_case` presents it to the runner: the case
identifier, whether the CBCT directory exists on disk, the discovered
intraoral-scan path, and the ground-truth implant list. -/
structure CaseEnv where
  caseId : String
  cbctExists : Bool
  iosPath : Option String
  groundTruthImplants : List Coord3

/-- The metrics dictionary returned by `run_full_pipeline` (runner.py lines
43-80). -/
structure PipelineMetrics where
  rmse : ℝ
  minCanalDistance : ℚ
  guideGenerated : Bool
  executionTimeMs : ℕ

/-- Python truthiness of `case_data.get("ios_path")`: absent or empty
string is falsy. -/
def iosTruthy : Option String → Bool
  | none => false
  | some s => !(s == "")

/-- `run_full_pipeline` (runner.py lines 43-80).  `elapsedMs` is the value
`int((perf_counter() - start) * 1000)` measured for this execution. -/
noncomputable def runFullPipeline (md5Hex8 : String → ℕ) (c : CaseEnv)
    (elapsedMs : ℕ) : PipelineMetrics :=
  let cbctLoaded := c.cbctExists
  let surfaceGenerated := cbctLoaded
  let iosLoaded := iosTruthy c.iosPath
  let registrationOk := surfaceGenerated && iosLoaded
  let gtImplants := c.groundTruthImplants
  let plannedImplants := pseudoPlannedImplants md5Hex8 gtImplants c.caseId
  let guideGenerated := registrationOk && !plannedImplants.isEmpty
  let rmse := computeImplantDeviation (PyList.lst plannedImplants) (PyList.lst gtImplants)
  let canalMinDistance : ℚ := 9 / 5 + ((stableSeed md5Hex8 c.caseId % 7 : ℕ) : ℚ) * (1 / 5)
  let safety := computeSafetyMargin canalMinDistance
  ⟨rmse, safety.minDistance, guideGenerated, elapsedMs⟩

/-- `ValidationThresholds` (validation_suite/config.py lines 6-15). -/
structure ValidationThresholds where
  maxRmse : ℚ
  minCanalDistance : ℚ
  minGuideSuccessRate : ℚ

/-- The process-wide `THRESHOLDS` instance (config.py line 15): defaults
1.5 / 2.0 / 0.95. -/
def THRESHOLDS : ValidationThresholds :=
  ⟨3 / 2, 2, 19 / 20⟩

/-- One row of `validation_summary.csv`, in its fixed column order
(runner.py lines 93-105 and 161).  Byte-identity of the written CSV is
exactly equality of these row lists. -/
structure ValidationRow where
  caseId : String
  rmse : ℝ
  minCanalDistance : ℚ
  guideGenerated : Bool
  executionTimeMs : ℕ
  passed : Bool

open Classical in
/-- The row built for one case by `run_validation` (runner.py lines
153-161): the pipeline metrics plus the `passed` verdict
`rmse <= max_rmse and min_canal_distance >= min_canal_distance and
guide_generated`. -/
noncomputable def caseRow (md5Hex8 : String → ℕ) (c : CaseEnv) (elapsedMs : ℕ) :
    ValidationRow :=
  let m := runFullPipeline md5Hex8 c elapsedMs
  ⟨c.caseId, m.rmse, m.minCanalDistance, m.guideGenerated, m.executionTimeMs,
    decide (m.rmse ≤ ((THRESHOLDS.maxRmse : ℚ) : ℝ)) &&
      decide (THRESHOLDS.minCanalDistance ≤ m.minCanalDistance) &&
      m.guideGenerated⟩

/-- The ordered row list written to `validation_summary.csv` for a dataset:
one `run_full_pipeline` call per case in directory order, with `timer i`
the elapsed milliseconds measured for the i-th case of this run. -/
noncomputable def runCsvRows (md5Hex8 : String → ℕ) (cases : List CaseEnv)
    (timer : ℕ → ℕ) : List ValidationRow :=
  (List.enum cases).map (fun ic => caseRow md5Hex8 ic.2 (timer ic.1))

/-- `guide_success_rate` (runner.py lines 163-166): fraction of rows with
the guide generated, 0.0 for an empty dataset. -/
def guideSuccessRate (results : List ValidationRow) : ℚ :=
  if results.length = 0 then 0
  else ((results.filter (fun r => r.guideGenerated)).length : ℚ) / (results.length : ℚ)

/-- The exit-code computation of `run_validation` (runner.py lines
180-186): 1 when the guide success rate is not strictly above
`min_guide_success_rate`, else 1 when some row failed, else 0. -/
def runVerdict (results : List ValidationRow) : ℕ :=
  let thresholdsOk := decide (THRESHOLDS.minGuideSuccessRate < guideSuccessRate results)
  if !thresholdsOk then 1
  else if results.any (fun r => !r.passed) then 1
  else 0

/-- `run_validation` end to end over the loaded dataset, returning the
process exit code together with the CSV rows it wrote. -/
noncomputable def runValidation (md5Hex8 : String → ℕ) (cases : List CaseEnv)
    (timer : ℕ → ℕ) : ℕ × List ValidationRow :=
  let rows := runCsvRows md5Hex8 cases timer
  (runVerdict rows, rows)

/-- Projection of a CSV row onto every column except `execution_time_ms`. -/
def rowWithoutTime (r : ValidationRow) : String × ℝ × ℚ × Bool × Bool :=
  (r.caseId, r.rmse, r.minCanalDistance, r.guideGenerated, r.passed)

/-!
### Concrete scenarios used by counterexamples and witnesses

Meshes are instantiated as natural numbers whose value is their point
count (`numPoints = id`).
-/

/-- Scenario: preprocessing succeeds, both boolean orders return an empty
result, and the filesystem refuses the bundle write (for example the disk
is full while `params.json` is written). -/
def envBundleWriteFails : BoolEnv Nat :=
  ⟨id, Except.ok, fun _ _ => Except.ok none, false, false, false⟩

/-- Scenario: preprocessing succeeds, both boolean orders return an empty
result, and the filesystem works. -/
def envFallbackOk : BoolEnv Nat :=
  ⟨id, Except.ok, fun _ _ => Except.ok none, true, true, true⟩

/-- Scenario: preprocessing succeeds and the boolean kernel RAISES in both
operand orders; the filesystem works. -/
def envAttemptRaises : BoolEnv Nat :=
  ⟨id, Except.ok, fun _ _ => Except.error (), false, false, true⟩

/-- Scenario: preprocessing succeeds and the first boolean order
immediately returns its base operand (non-empty for a positive count). -/
def envFirstOrderWorks : BoolEnv Nat :=
  ⟨id, Except.ok, fun a _ => Except.ok (some a), false, false, true⟩

/-- The result `robust_boolean_difference` produces under
`envFirstOrderWorks` on meshes with 1 and 2 points. -/
def resFirstOrderWorks : BoolDiffResult Nat :=
  ⟨some 1, true, ["base-minus-subtract"], [], none, none, "success"⟩

/-- Whether the first boolean attempt produced a usable result: it returned
(rather than raised) and its output is non-absent with at least one point. -/
def attemptUsable {M : Type} (numPoints : M → Nat) (outcome : Except Unit (Option M)) : Bool :=
  match outcome with
  | Except.error _ => false
  | Except.ok o => isNonEmptyPolydata numPoints o

/-- The attempts list `robust_boolean_difference` actually records, as a
function of the two kernel outcomes: a label is appended exactly when the
corresponding call RETURNS (normally), and the second order is only reached
when the first was not usable. -/
def expectedAttempts {M : Type} (env : BoolEnv M) (basePp subPp : M) : List String :=
  (match env.boolOp basePp subPp with
   | Except.ok _ => ["base-minus-subtract"]
   | Except.error _ => []) ++
  (if attemptUsable env.numPoints (env.boolOp basePp subPp) then []
   else
     match env.boolOp subPp basePp with
     | Except.ok _ => ["subtract-minus-base"]
     | Except.error _ => [])

/-- A preprocessing kernel whose hole-filling stage always raises while
every other stage succeeds and increments the (point-count) mesh. -/
def kernelHoleFillFails : PreprocessKernel Nat :=
  ⟨fun m => Except.ok (m + 1), fun m => Except.ok (m + 1), fun _ => Except.error (),
   fun m => Except.ok (m + 1), fun m => Except.ok (m + 1), fun m => Except.ok (m + 1)⟩

/-- The stages of `kernelHoleFillFails` before the failing stage. -/
def stagesBeforeHoleFill : List (Nat → Except Unit Nat) :=
  [fun m => Except.ok (m + 1), fun m => Except.ok (m + 1)]

/-- The stages of `kernelHoleFillFails` after the failing stage. -/
def stagesAfterHoleFill : List (Nat → Except Unit Nat) :=
  [fun m => Except.ok (m + 1), fun m => Except.ok (m + 1), fun m => Except.ok (m + 1)]

/-- A constant stand-in for the md5 digest prefix (any fixed function will
do: the runner calls it on the same case id in both runs). -/
def md5W : String → ℕ := fun _ => 0

/-- A dataset of one case whose CBCT directory is missing and whose
ground-truth list is empty. -/
def caseW : CaseEnv :=
  ⟨"case-001", false, none, []⟩

/-!
## Theorems
-/

/-- A usable polydata is a present mesh with a positive point count. -/
theorem isNonEmptyPolydata_eq_true {M : Type} (numPoints : M → Nat) (o : Option M) :
    isNonEmptyPolydata numPoints o = true ↔ ∃ m, o = some m ∧ 0 < numPoints m := by
  cases o with
  | none => simp [isNonEmptyPolydata]
  | some m => simp [isNonEmptyPolydata]

/-- An unusable polydata is absent or has no points. -/
theorem isNonEmptyPolydata_eq_false {M : Type} (numPoints : M → Nat) (o : Option M) :
    isNonEmptyPolydata numPoints o = false ↔ o = none ∨ ∃ m, o = some m ∧ numPoints m = 0 := by
  cases o with
  | none => simp [isNonEmptyPolydata]
  | some m => simp [isNonEmptyPolydata, Nat.pos_iff_ne_zero]

/-- With both operands present and both preprocessing calls completing,
`robust_boolean_difference` proceeds with the preprocessed operands and is
the first-attempt block. -/
theorem robustBooleanDifference_pp_ok {M : Type} (env : BoolEnv M) (b s basePp subPp : M)
    (hppb : env.pp b = Except.ok basePp) (hpps : env.pp s = Except.ok subPp) :
    robustBooleanDifference env (some b) (some s) = firstAttempt env basePp subPp true := by
  simp only [robustBooleanDifference, hppb, hpps]

/-- First attempt returns a usable result: immediate success, one label. -/
theorem firstAttempt_usable {M : Type} (env : BoolEnv M) (basePp subPp : M) (pre : Bool)
    (o1 : Option M) (h1 : env.boolOp basePp subPp = Except.ok o1)
    (he1 : isNonEmptyPolydata env.numPoints o1 = true) :
    firstAttempt env basePp subPp pre =
      Except.ok ⟨o1, pre, ["base-minus-subtract"], [], none, none, "success"⟩ := by
  unfold firstAttempt
  rw [h1]
  simp [he1]

/-- First attempt returns an unusable (absent or empty) result: the label
is recorded and the reversed attempt follows. -/
theorem firstAttempt_unusable {M : Type} (env : BoolEnv M) (basePp subPp : M) (pre : Bool)
    (o1 : Option M) (h1 : env.boolOp basePp subPp = Except.ok o1)
    (he1 : isNonEmptyPolydata env.numPoints o1 = false) :
    firstAttempt env basePp subPp pre =
      secondAttempt env basePp subPp pre ["base-minus-subtract"] := by
  unfold firstAttempt
  rw [h1]
  simp only [he1]
  simp [isNonEmptyPolydata]

/-- First attempt raises: no label is recorded and the reversed attempt
follows. -/
theorem firstAttempt_raises {M : Type} (env : BoolEnv M) (basePp subPp : M) (pre : Bool)
    (h1 : env.boolOp basePp subPp = Except.error ()) :
    firstAttempt env basePp subPp pre = secondAttempt env basePp subPp pre [] := by
  unfold firstAttempt
  rw [h1]

/-- Second attempt returns a usable result: success, label appended. -/
theorem secondAttempt_usable {M : Type} (env : BoolEnv M) (basePp subPp : M) (pre : Bool)
    (atts : List String) (o2 : Option M) (h2 : env.boolOp subPp basePp = Except.ok o2)
    (he2 : isNonEmptyPolydata env.numPoints o2 = true) :
    secondAttempt env basePp subPp pre atts =
      Except.ok ⟨o2, pre, atts ++ ["subtract-minus-base"], [], none, none, "success"⟩ := by
  unfold secondAttempt
  rw [h2]
  simp [he2]

/-- Second attempt returns an unusable result: the label is appended and
the fallback runs. -/
theorem secondAttempt_unusable {M : Type} (env : BoolEnv M) (basePp subPp : M) (pre : Bool)
    (atts : List String) (o2 : Option M) (h2 : env.boolOp subPp basePp = Except.ok o2)
    (he2 : isNonEmptyPolydata env.numPoints o2 = false) :
    secondAttempt env basePp subPp pre atts =
      fallbackReturn env basePp subPp pre (atts ++ ["subtract-minus-base"]) := by
  unfold secondAttempt
  rw [h2]
  simp only [he2]
  simp [isNonEmptyPolydata]

/-- Second attempt raises: no label is appended and the fallback runs. -/
theorem secondAttempt_raises {M : Type} (env : BoolEnv M) (basePp subPp : M) (pre : Bool)
    (atts : List String) (h2 : env.boolOp subPp basePp = Except.error ()) :
    secondAttempt env basePp subPp pre atts = fallbackReturn env basePp subPp pre atts := by
  unfold secondAttempt
  rw [h2]

/-- With a working filesystem the fallback returns the preprocessed base
mesh, status `fallback`, and the bundle artifacts. -/
theorem fallbackReturn_fs_ok {M : Type} (env : BoolEnv M) (basePp subPp : M) (pre : Bool)
    (atts : List String) (hfs : env.fsOk = true) :
    fallbackReturn env basePp subPp pre atts =
      Except.ok
        ⟨some basePp, pre, atts,
          ((if env.serializeBase then [("base_mesh", "base.vtp")] else []) ++
            (if env.serializeSub then [("subtract_mesh", "subtract.vtp")] else [])) ++
            [("params", "params.json"), ("snapshot", "snapshot.log")],
          some "channel_only", some fallbackReason, "fallback"⟩ := by
  unfold fallbackReturn saveFailureBundle
  rw [hfs]
  simp

/-- With a failing filesystem the fallback raises. -/
theorem fallbackReturn_fs_fails {M : Type} (env : BoolEnv M) (basePp subPp : M) (pre : Bool)
    (atts : List String) (hfs : env.fsOk = false) :
    fallbackReturn env basePp subPp pre atts = Except.error () := by
  unfold fallbackReturn saveFailureBundle
  rw [hfs]
  simp

/-- C1 — the code, not the claim, is at fault: `robust_boolean_difference`
calls `_save_failure_bundle` outside any `try`, and inside the bundle
writer `mkdir` and `write_text` are unguarded, so a filesystem failure on
the fallback path propagates as an exception out of
`robust_boolean_difference`.  Evaluated at a concrete input: both operands
are present one-point meshes, both boolean orders return an empty result,
and the bundle write fails; the call raises instead of returning a status. -/
theorem robust_difference_raises_on_bundle_write_failure :
    robustBooleanDifference envBundleWriteFails (some 1) (some 1) = Except.error () := rfl

/-- C2 — fallback correctness: when both operands are present, both
preprocessing calls complete, both boolean attempts return an absent or
empty result, and the diagnostic filesystem writes succeed, the status is
exactly `fallback`, the returned guide is the preprocessed base mesh, and
the failure bundle contains at least `params.json` and `snapshot.log`. -/
theorem robust_fallback_correct {M : Type} (env : BoolEnv M) (b s basePp subPp : M)
    (o1 o2 : Option M)
    (hppb : env.pp b = Except.ok basePp) (hpps : env.pp s = Except.ok subPp)
    (h1 : env.boolOp basePp subPp = Except.ok o1)
    (he1 : isNonEmptyPolydata env.numPoints o1 = false)
    (h2 : env.boolOp subPp basePp = Except.ok o2)
    (he2 : isNonEmptyPolydata env.numPoints o2 = false)
    (hfs : env.fsOk = true) :
    ∃ r : BoolDiffResult M,
      robustBooleanDifference env (some b) (some s) = Except.ok r ∧
      r.status = "fallback" ∧
      r.guidePolydata = some basePp ∧
      "params.json" ∈ r.failureArtifacts.map Prod.snd ∧
      "snapshot.log" ∈ r.failureArtifacts.map Prod.snd := by
  rw [robustBooleanDifference_pp_ok env b s basePp subPp hppb hpps,
    firstAttempt_unusable env basePp subPp true o1 h1 he1,
    secondAttempt_unusable env basePp subPp true _ o2 h2 he2,
    fallbackReturn_fs_ok env basePp subPp true _ hfs]
  refine ⟨_, rfl, rfl, rfl, ?_, ?_⟩ <;> simp

/-- Witness for C2: the fallback scenario evaluated on concrete one- and
two-point meshes. -/
theorem robust_fallback_correct_witness :
    ∃ r : BoolDiffResult Nat,
      robustBooleanDifference envFallbackOk (some 1) (some 2) = Except.ok r ∧
      r.status = "fallback" ∧
      r.guidePolydata = some 1 ∧
      "params.json" ∈ r.failureArtifacts.map Prod.snd ∧
      "snapshot.log" ∈ r.failureArtifacts.map Prod.snd :=
  robust_fallback_correct envFallbackOk 1 2 1 2 none none rfl rfl rfl rfl rfl rfl rfl

/-- C3 — counterexample: the claim says an attempt label is recorded
regardless of the attempt's outcome, including when it raises.  On a
concrete input where both operands are present and the boolean kernel
raises in both orders, the pipeline reaches the fallback (so both attempts
were executed) yet the recorded attempts list is empty: the label of a
raising attempt is NOT recorded, because the source appends the label after
the kernel call inside the same `try` block. -/
theorem attempt_label_lost_when_attempt_raises :
    ∃ r : BoolDiffResult Nat,
      robustBooleanDifference envAttemptRaises (some 1) (some 1) = Except.ok r ∧
      r.status = "fallback" ∧
      r.attempts = [] := by
  refine ⟨_, rfl, rfl, rfl⟩

/-- C3 (amended) — an attempt's label is recorded iff that attempt returns
normally (whether usable or empty); a raising attempt is not recorded.  The
reversed order is only reached when the first was not usable, and a result
is usable only if it is non-absent with at least one point: whenever the
status is `success` the returned guide is a present mesh with a positive
point count. -/
theorem attempts_recorded_iff_returns {M : Type} (env : BoolEnv M) (b s basePp subPp : M)
    (r : BoolDiffResult M)
    (hppb : env.pp b = Except.ok basePp) (hpps : env.pp s = Except.ok subPp)
    (hr : robustBooleanDifference env (some b) (some s) = Except.ok r) :
    r.attempts = expectedAttempts env basePp subPp ∧
    (r.status = "success" → ∃ m, r.guidePolydata = some m ∧ 0 < env.numPoints m) := by
  rw [robustBooleanDifference_pp_ok env b s basePp subPp hppb hpps] at hr
  cases h1 : env.boolOp basePp subPp with
  | ok o1 =>
      cases he1 : isNonEmptyPolydata env.numPoints o1 with
      | true =>
          rw [firstAttempt_usable env basePp subPp true o1 h1 he1] at hr
          injection hr with hr
          subst hr
          refine ⟨by simp [expectedAttempts, attemptUsable, h1, he1], fun _ => ?_⟩
          rcases (isNonEmptyPolydata_eq_true env.numPoints o1).1 he1 with ⟨m, hm, hp⟩
          exact ⟨m, by simp [hm], hp⟩
      | false =>
          rw [firstAttempt_unusable env basePp subPp true o1 h1 he1] at hr
          cases h2 : env.boolOp subPp basePp with
          | ok o2 =>
              cases he2 : isNonEmptyPolydata env.numPoints o2 with
              | true =>
                  rw [secondAttempt_usable env basePp subPp true _ o2 h2 he2] at hr
                  injection hr with hr
                  subst hr
                  refine ⟨by simp [expectedAttempts, attemptUsable, h1, he1, h2], fun _ => ?_⟩
                  rcases (isNonEmptyPolydata_eq_true env.numPoints o2).1 he2 with ⟨m, hm, hp⟩
                  exact ⟨m, by simp [hm], hp⟩
              | false =>
                  rw [secondAttempt_unusable env basePp subPp true _ o2 h2 he2] at hr
                  cases hfs : env.fsOk with
                  | true =>
                      rw [fallbackReturn_fs_ok env basePp subPp true _ hfs] at hr
                      injection hr with hr
                      subst hr
                      refine ⟨by simp [expectedAttempts, attemptUsable, h1, he1, h2], fun hst => ?_⟩
                      simp at hst
                  | false =>
                      rw [fallbackReturn_fs_fails env basePp subPp true _ hfs] at hr
                      cases hr
          | error e =>
              cases e
              rw [secondAttempt_raises env basePp subPp true _ h2] at hr
              cases hfs : env.fsOk with
              | true =>
                  rw [fallbackReturn_fs_ok env basePp subPp true _ hfs] at hr
                  injection hr with hr
                  subst hr
                  refine ⟨by simp [expectedAttempts, attemptUsable, h1, he1, h2], fun hst => ?_⟩
                  simp at hst
              | false =>
                  rw [fallbackReturn_fs_fails env basePp subPp true _ hfs] at hr
                  cases hr
  | error e =>
      cases e
      rw [firstAttempt_raises env basePp subPp true h1] at hr
      cases h2 : env.boolOp subPp basePp with
      | ok o2 =>
          cases he2 : isNonEmptyPolydata env.numPoints o2 with
          | true =>
              rw [secondAttempt_usable env basePp subPp true _ o2 h2 he2] at hr
              injection hr with hr
              subst hr
              refine ⟨by simp [expectedAttempts, attemptUsable, h1, h2], fun _ => ?_⟩
              rcases (isNonEmptyPolydata_eq_true env.numPoints o2).1 he2 with ⟨m, hm, hp⟩
              exact ⟨m, by simp [hm], hp⟩
          | false =>
              rw [secondAttempt_unusable env basePp subPp true _ o2 h2 he2] at hr
              cases hfs : env.fsOk with
              | true =>
                  rw [fallbackReturn_fs_ok env basePp subPp true _ hfs] at hr
                  injection hr with hr
                  subst hr
                  refine ⟨by simp [expectedAttempts, attemptUsable, h1, h2], fun hst => ?_⟩
                  simp at hst
              | false =>
                  rw [fallbackReturn_fs_fails env basePp subPp true _ hfs] at hr
                  cases hr
      | error e2 =>
          cases e2
          rw [secondAttempt_raises env basePp subPp true _ h2] at hr
          cases hfs : env.fsOk with
          | true =>
              rw [fallbackReturn_fs_ok env basePp subPp true _ hfs] at hr
              injection hr with hr
              subst hr
              refine ⟨by simp [expectedAttempts, attemptUsable, h1, h2], fun hst => ?_⟩
              simp at hst
          | false =>
              rw [fallbackReturn_fs_fails env basePp subPp true _ hfs] at hr
              cases hr


/-- Witness for the amended C3: under `envFirstOrderWorks` the first
attempt returns a usable one-point mesh, the label list is exactly the
recorded one, and the success result carries a non-empty mesh. -/
theorem attempts_recorded_iff_returns_witness :
    robustBooleanDifference envFirstOrderWorks (some 1) (some 2) = Except.ok resFirstOrderWorks ∧
    (resFirstOrderWorks.attempts = expectedAttempts envFirstOrderWorks 1 2 ∧
      (resFirstOrderWorks.status = "success" →
        ∃ m, resFirstOrderWorks.guidePolydata = some m ∧ 0 < envFirstOrderWorks.numPoints m)) :=
  ⟨rfl, attempts_recorded_iff_returns envFirstOrderWorks 1 2 1 2 resFirstOrderWorks rfl rfl rfl⟩

/-- Dropping an always-raising stage from a best-effort stage chain does
not change the fold: the failing stage's output is discarded and every
later stage runs on the last good mesh. -/
theorem foldl_runStage_skip_failing {M : Type} (m : M)
    (before after : List (M → Except Unit M)) (f : M → Except Unit M)
    (hf : ∀ x, f x = Except.error ()) :
    List.foldl runStage m (before ++ f :: after) = List.foldl runStage m (before ++ after) := by
  rw [List.foldl_append, List.foldl_append, List.foldl_cons]
  have hid : runStage (List.foldl runStage m before) f = List.foldl runStage m before := by
    unfold runStage
    rw [hf]
  rw [hid]

/-- C8 — the preprocessor passes an absent input through unchanged, and
each stage of `preprocess_for_boolean` is independently fault-isolated:
whenever some stage of the chain always raises, the pipeline result equals
the remaining stages folded over the last good mesh (the output of the
stages before the failing one), so a failure in one stage never prevents a
later stage from executing. -/
theorem preprocess_fault_isolated (M : Type) :
    (∀ k : Option (PreprocessKernel M), preprocessForBoolean k none = none) ∧
    (∀ (k : PreprocessKernel M) (m : M) (before after : List (M → Except Unit M))
        (f : M → Except Unit M),
      kernelStages k = before ++ f :: after →
      (∀ x, f x = Except.error ()) →
      preprocessForBoolean (some k) (some m) =
        some (List.foldl runStage (List.foldl runStage m before) after)) := by
  constructor
  · intro k
    cases k <;> rfl
  · intro k m before after f hdec hf
    show some (List.foldl runStage m (kernelStages k)) = _
    rw [hdec, foldl_runStage_skip_failing m before after f hf, List.foldl_append]

/-- Witness for C8: a kernel whose hole-filling stage always raises while
the other five stages each increment the point count; the pipeline still
runs all five remaining stages (0 becomes 5), and an absent mesh passes
through. -/
theorem preprocess_fault_isolated_witness :
    preprocessForBoolean (some kernelHoleFillFails) (some 0) =
      some (List.foldl runStage (List.foldl runStage 0 stagesBeforeHoleFill) stagesAfterHoleFill) ∧
    preprocessForBoolean (some kernelHoleFillFails) (some 0) = some 5 ∧
    preprocessForBoolean (some kernelHoleFillFails) none = none :=
  ⟨(preprocess_fault_isolated Nat).2 kernelHoleFillFails 0 stagesBeforeHoleFill
      stagesAfterHoleFill (fun _ => Except.error ()) rfl (fun _ => rfl),
    rfl,
    (preprocess_fault_isolated Nat).1 (some kernelHoleFillFails)⟩

/-- `math.dist` is symmetric in its two points. -/
theorem mathDist_comm (p q : Vec3) : mathDist p q = mathDist q p := by
  unfold mathDist
  apply congrArg Real.sqrt
  push_cast
  ring

/-- The collision list of a two-implant battery: exactly the pair (0, 1),
recorded iff the center distance is below the radius sum. -/
theorem collisionList_pair (A B : Implant) :
    collisionList [A, B] =
      if mathDist A.pos B.pos < ((A.radius + B.radius : ℚ) : ℝ) then
        [⟨0, 1, roundTo3R (mathDist A.pos B.pos)⟩]
      else [] := by
  unfold collisionList
  rw [show List.range ([A, B].length) = [0, 1] from rfl]
  simp only [List.flatMap_cons, List.flatMap_nil, List.append_nil, List.drop_succ_cons,
    List.drop_zero, List.drop_nil, List.getD_cons_zero, List.getD_cons_succ,
    List.filterMap_cons, List.filterMap_nil]
  by_cases h : mathDist A.pos B.pos < ((A.radius + B.radius : ℚ) : ℝ)
  · simp only [if_pos h]
  · simp only [if_neg h]

/-- C7 — sleeve-collision symmetry: swapping the two implants leaves the
pass flag unchanged, a collision is reported for `[A, B]` iff it is
reported for `[B, A]`, and the reported (rounded) center distances are the
same in both orders. -/
theorem sleeve_collision_symmetric (A B : Implant) :
    (sleeveCollisionCheck (some [A, B])).passes = (sleeveCollisionCheck (some [B, A])).passes ∧
    ((sleeveCollisionCheck (some [A, B])).collisions ≠ [] ↔
      (sleeveCollisionCheck (some [B, A])).collisions ≠ []) ∧
    (sleeveCollisionCheck (some [A, B])).collisions.map Collision.distance =
      (sleeveCollisionCheck (some [B, A])).collisions.map Collision.distance := by
  have hBA : collisionList [B, A] =
      if mathDist A.pos B.pos < ((A.radius + B.radius : ℚ) : ℝ) then
        [⟨0, 1, roundTo3R (mathDist A.pos B.pos)⟩]
      else [] := by
    rw [collisionList_pair B A, mathDist_comm B.pos A.pos]
    rw [show ((B.radius + A.radius : ℚ) : ℝ) = ((A.radius + B.radius : ℚ) : ℝ) by
      push_cast; ring]
  by_cases h : mathDist A.pos B.pos < ((A.radius + B.radius : ℚ) : ℝ)
  · simp [sleeveCollisionCheck, collisionList_pair A B, hBA, h]
  · simp [sleeveCollisionCheck, collisionList_pair A B, hBA, h]

/-- C9 — `qc_summary` on an absent mesh and absent implant list (whether or
not the VTK kernel is importable) consults no fallible external call, so it
cannot raise, and returns all four sub-results: the sleeve-collision and
undercut checks pass, minimum thickness fails with metric 0.0, printable
orientation fails with reported score 0.0, and the overall flag is false. -/
theorem qc_summary_absent_inputs (vtkAvailable : Bool) :
    qcSummary vtkAvailable none none =
      ⟨⟨0, false⟩, ⟨true, []⟩, ⟨0, true⟩, ⟨0, false⟩, false⟩ := by
  have hthick : minimumThickness none = ⟨0, false⟩ := by
    unfold minimumThickness polydataBounds
    norm_num [roundTo3]
  have hsleeve : sleeveCollisionCheck none = ⟨true, []⟩ := rfl
  have hunder : undercutDetection vtkAvailable none = ⟨0, true⟩ := by
    cases vtkAvailable <;> rfl
  have horient : printableOrientationScore none = ⟨0, false⟩ := by
    unfold printableOrientationScore polydataBounds
    norm_num [roundTo3]
  unfold qcSummary
  rw [hthick, hsleeve, hunder, horient]
  rfl

/-- Summing a function mapped over `List.range` is the `Finset.range` sum. -/
theorem listRange_map_sum (n : ℕ) (f : ℕ → ℚ) :
    ((List.range n).map f).sum = ∑ i in Finset.range n, f i := by
  induction n with
  | zero => simp
  | succ k ih => simp [List.range_succ, Finset.sum_range_succ, ih]

/-- C6 — `compute_implant_deviation` returns 0.0 whenever either argument
is a non-list or an empty list, and otherwise pairs the two lists strictly
by index up to the shorter length and returns the root-mean-square 3D
Euclidean distance over those pairs. -/
theorem implant_deviation_spec :
    (∀ x : PyList Coord3,
      computeImplantDeviation PyList.nonlist x = 0 ∧
      computeImplantDeviation x PyList.nonlist = 0 ∧
      computeImplantDeviation (PyList.lst []) x = 0 ∧
      computeImplantDeviation x (PyList.lst []) = 0) ∧
    (∀ p g : List Coord3, p ≠ [] → g ≠ [] →
      computeImplantDeviation (PyList.lst p) (PyList.lst g) =
        Real.sqrt (((∑ idx in Finset.range (min p.length g.length),
            sqDist3 (p.getD idx default) (g.getD idx default) : ℚ) : ℝ) /
          ((min p.length g.length : ℕ) : ℝ))) := by
  constructor
  · intro x
    cases x <;> simp [computeImplantDeviation]
  · intro p g hp hg
    simp only [computeImplantDeviation]
    rw [if_neg (by simp [hp, hg])]
    have h1 : 0 < p.length := List.length_pos.2 hp
    have h2 : 0 < g.length := List.length_pos.2 hg
    rw [if_neg (by omega)]
    rw [listRange_map_sum]

/-- Witness for C6: one planned point at x = 1 against one ground-truth
point at the origin. -/
theorem implant_deviation_spec_witness :
    computeImplantDeviation (PyList.lst [⟨some 1, none, none⟩]) (PyList.lst [⟨none, none, none⟩]) =
      Real.sqrt (((∑ idx in Finset.range
          (min ([(⟨some 1, none, none⟩ : Coord3)].length) ([(⟨none, none, none⟩ : Coord3)].length)),
          sqDist3 ([(⟨some 1, none, none⟩ : Coord3)].getD idx default)
            ([(⟨none, none, none⟩ : Coord3)].getD idx default) : ℚ) : ℝ) /
        ((min ([(⟨some 1, none, none⟩ : Coord3)].length)
          ([(⟨none, none, none⟩ : Coord3)].length) : ℕ) : ℝ)) :=
  implant_deviation_spec.2 [⟨some 1, none, none⟩] [⟨none, none, none⟩]
    (by simp) (by simp)

/-- Zipping a mapped copy of a list with the list pairs each element with
its image. -/
theorem zip_map_self {α β : Type} (f : α → β) (l : List α) :
    (l.map f).zip l = l.map (fun a => (f a, a)) := by
  induction l with
  | nil => rfl
  | cons x xs ih => simp [ih]

/-- Reading the `x` key of a planner-produced record. -/
theorem Coord3.gx_mk (x : ℚ) (y z : Option ℚ) : (⟨some x, y, z⟩ : Coord3).gx = x := rfl

/-- Reading the `y` key of a planner-produced record. -/
theorem Coord3.gy_mk (x : Option ℚ) (y : ℚ) (z : Option ℚ) :
    (⟨x, some y, z⟩ : Coord3).gy = y := rfl

/-- Reading the `z` key of a planner-produced record. -/
theorem Coord3.gz_mk (x y : Option ℚ) (z : ℚ) : (⟨x, y, some z⟩ : Coord3).gz = z := rfl

/-- The planner sign is plus or minus one. -/
theorem plannerSign_cases (md5Hex8 : String → ℕ) (caseId : String) :
    plannerSign md5Hex8 caseId = 1 ∨ plannerSign md5Hex8 caseId = -1 := by
  unfold plannerSign
  by_cases h : stableSeed md5Hex8 caseId % 2 = 0
  · exact Or.inl (if_pos h)
  · exact Or.inr (if_neg h)

/-- The planner jitter lies in [0, 0.7]. -/
theorem plannerJitter_bounds (md5Hex8 : String → ℕ) (caseId : String) :
    0 ≤ plannerJitter md5Hex8 caseId ∧ plannerJitter md5Hex8 caseId ≤ 7 / 10 := by
  unfold plannerJitter
  constructor
  · positivity
  · have h : stableSeed md5Hex8 caseId % 8 ≤ 7 := by omega
    have h2 : ((stableSeed md5Hex8 caseId % 8 : ℕ) : ℚ) ≤ 7 := by exact_mod_cast h
    linarith

/-- On a non-empty ground truth the planner is a uniform shift of every
ground-truth coordinate by the seed-derived offsets. -/
theorem pseudoPlannedImplants_eq_map (md5Hex8 : String → ℕ) (caseId : String)
    (gt : List Coord3) (hgt : gt ≠ []) :
    pseudoPlannedImplants md5Hex8 gt caseId =
      gt.map (fun implant =>
        ⟨some (implant.gx + (1 / 5) * plannerSign md5Hex8 caseId +
            plannerJitter md5Hex8 caseId / 10),
         some (implant.gy + (1 / 10) * plannerSign md5Hex8 caseId),
         some (implant.gz + (3 / 20) * plannerSign md5Hex8 caseId)⟩) := by
  unfold pseudoPlannedImplants plannerSign plannerJitter stableSeed
  rw [if_neg hgt]

/-- Deviation between a uniformly shifted copy of a non-empty list and the
list itself: the square root of the per-pair squared distance. -/
theorem dev_map_const (gt : List Coord3) (hgt : gt ≠ []) (f : Coord3 → Coord3) (s0 : ℚ)
    (hs : ∀ c, sqDist3 (f c) c = s0) :
    computeImplantDeviation (PyList.lst (gt.map f)) (PyList.lst gt) =
      Real.sqrt ((s0 : ℝ)) := by
  have hmap : gt.map f ≠ [] := by simpa using hgt
  simp only [computeImplantDeviation]
  rw [if_neg (by simp [hmap, hgt])]
  have hlen : (gt.map f).length = gt.length := List.length_map gt f
  have hn : 0 < gt.length := List.length_pos.2 hgt
  rw [if_neg (by rw [hlen]; omega)]
  have hmin : min (gt.map f).length gt.length = gt.length := by
    rw [hlen, min_self]
  rw [hmin]
  have hterm : ∀ idx ∈ List.range gt.length,
      sqDist3 ((gt.map f).getD idx default) (gt.getD idx default) = s0 := by
    intro idx hidx
    have hlt : idx < gt.length := List.mem_range.1 hidx
    have hlt2 : idx < (gt.map f).length := by rw [hlen]; exact hlt
    rw [List.getD_eq_getElem _ _ hlt2, List.getD_eq_getElem _ _ hlt]
    rw [List.getElem_map]
    exact hs _
  have hsum : ((List.range gt.length).map (fun idx =>
      sqDist3 ((gt.map f).getD idx default) (gt.getD idx default))).sum =
      (gt.length : ℚ) * s0 := by
    rw [List.map_congr_left hterm]
    simp [List.map_const', List.sum_replicate, nsmul_eq_mul]
  rw [hsum]
  apply congrArg Real.sqrt
  have hne : ((gt.length : ℕ) : ℝ) ≠ 0 := by
    exact_mod_cast Nat.pos_iff_ne_zero.1 hn
  push_cast
  field_simp

/-- C10 — the stand-in planner returns one planned implant per ground-truth
implant; every planned coordinate differs from its ground-truth coordinate
by a bounded offset (|dx| at most 0.27, |dy| exactly 0.1, |dz| exactly
0.15), and the resulting implant deviation is at most 0.33, strictly below
the 1.5 `max_rmse` threshold. -/
theorem pseudo_planner_bounded (md5Hex8 : String → ℕ) (caseId : String) (gt : List Coord3) :
    (pseudoPlannedImplants md5Hex8 gt caseId).length = gt.length ∧
    (∀ pr ∈ (pseudoPlannedImplants md5Hex8 gt caseId).zip gt,
      |pr.1.gx - pr.2.gx| ≤ 27 / 100 ∧
      |pr.1.gy - pr.2.gy| = 1 / 10 ∧
      |pr.1.gz - pr.2.gz| = 3 / 20) ∧
    computeImplantDeviation (PyList.lst (pseudoPlannedImplants md5Hex8 gt caseId))
      (PyList.lst gt) ≤ 33 / 100 ∧
    computeImplantDeviation (PyList.lst (pseudoPlannedImplants md5Hex8 gt caseId))
      (PyList.lst gt) < ((THRESHOLDS.maxRmse : ℚ) : ℝ) := by
  by_cases hgt : gt = []
  · subst hgt
    have hplan : pseudoPlannedImplants md5Hex8 [] caseId = [] := rfl
    rw [hplan]
    have hdev : computeImplantDeviation (PyList.lst []) (PyList.lst []) = 0 := by
      simp [computeImplantDeviation]
    rw [hdev]
    refine ⟨rfl, by simp, by norm_num, ?_⟩
    show (0 : ℝ) < ((THRESHOLDS.maxRmse : ℚ) : ℝ)
    norm_num [THRESHOLDS]
  · have hj := plannerJitter_bounds md5Hex8 caseId
    have hsgn := plannerSign_cases md5Hex8 caseId
    set sg : ℚ := plannerSign md5Hex8 caseId with hsg
    set jt : ℚ := plannerJitter md5Hex8 caseId with hjt
    have hplan := pseudoPlannedImplants_eq_map md5Hex8 caseId gt hgt
    rw [← hsg, ← hjt] at hplan
    have hdx : |(1 / 5 : ℚ) * sg + jt / 10| ≤ 27 / 100 := by
      rcases hsgn with h | h <;>
        (rw [h]; rw [abs_le]; constructor <;> linarith [hj.1, hj.2])
    have hdy : |(1 / 10 : ℚ) * sg| = 1 / 10 := by
      rcases hsgn with h | h <;> (rw [h]; norm_num)
    have hdz : |(3 / 20 : ℚ) * sg| = 3 / 20 := by
      rcases hsgn with h | h <;> (rw [h]; norm_num)
    have hdev : computeImplantDeviation (PyList.lst (pseudoPlannedImplants md5Hex8 gt caseId))
        (PyList.lst gt) =
        Real.sqrt ((((1 / 5 * sg + jt / 10) ^ 2 + (1 / 10 * sg) ^ 2 + (3 / 20 * sg) ^ 2 : ℚ) : ℝ)) := by
      rw [hplan]
      apply dev_map_const gt hgt
      intro c
      simp [sqDist3, Coord3.gx, Coord3.gy, Coord3.gz]
      ring
    have hs0 : ((1 / 5 : ℚ) * sg + jt / 10) ^ 2 + (1 / 10 * sg) ^ 2 + (3 / 20 * sg) ^ 2 ≤
        1089 / 10000 := by
      have h1 : ((1 / 5 : ℚ) * sg + jt / 10) ^ 2 ≤ (27 / 100) ^ 2 := by
        rcases abs_le.1 hdx with ⟨hl, hr⟩
        exact sq_le_sq' hl hr
      have h2 : ((1 / 10 : ℚ) * sg) ^ 2 = 1 / 100 := by
        rcases hsgn with h | h <;> (rw [h]; norm_num)
      have h3 : ((3 / 20 : ℚ) * sg) ^ 2 = 9 / 400 := by
        rcases hsgn with h | h <;> (rw [h]; norm_num)
      rw [h2, h3]
      nlinarith
    have hsqrt : computeImplantDeviation (PyList.lst (pseudoPlannedImplants md5Hex8 gt caseId))
        (PyList.lst gt) ≤ 33 / 100 := by
      rw [hdev]
      have hb : (((1 / 5 * sg + jt / 10) ^ 2 + (1 / 10 * sg) ^ 2 + (3 / 20 * sg) ^ 2 : ℚ) : ℝ) ≤
          ((33 / 100 : ℝ)) ^ 2 := by
        have := hs0
        rw [show ((33 / 100 : ℝ)) ^ 2 = ((1089 / 10000 : ℚ) : ℝ) by norm_num]
        exact_mod_cast this
      calc Real.sqrt (((1 / 5 * sg + jt / 10) ^ 2 + (1 / 10 * sg) ^ 2 + (3 / 20 * sg) ^ 2 : ℚ) : ℝ) ≤
          Real.sqrt (((33 / 100 : ℝ)) ^ 2) := Real.sqrt_le_sqrt hb
        _ = 33 / 100 := Real.sqrt_sq (by norm_num)
    refine ⟨?_, ?_, hsqrt, ?_⟩
    · rw [hplan, List.length_map]
    · intro pr hpr
      rw [hplan, zip_map_self] at hpr
      rcases List.mem_map.1 hpr with ⟨a, _, rfl⟩
      refine ⟨?_, ?_, ?_⟩
      · rw [Coord3.gx_mk,
          show a.gx + 1 / 5 * sg + jt / 10 - a.gx = (1 / 5 : ℚ) * sg + jt / 10 from by ring]
        exact hdx
      · rw [Coord3.gy_mk,
          show a.gy + 1 / 10 * sg - a.gy = (1 / 10 : ℚ) * sg from by ring]
        exact hdy
      · rw [Coord3.gz_mk,
          show a.gz + 3 / 20 * sg - a.gz = (3 / 20 : ℚ) * sg from by ring]
        exact hdz
    · exact lt_of_le_of_lt hsqrt (by norm_num [THRESHOLDS])

/-- Witness for C10: a single ground-truth implant at (1, 0, 2) under the
zero hash (sign +1, jitter 0): the planner keeps the length and the
deviation is below both 0.33 and the threshold. -/
theorem pseudo_planner_bounded_witness :
    (pseudoPlannedImplants md5W [⟨none, none, none⟩] "case-001").length =
      [(⟨none, none, none⟩ : Coord3)].length ∧
    computeImplantDeviation (PyList.lst (pseudoPlannedImplants md5W [⟨none, none, none⟩] "case-001"))
      (PyList.lst [⟨none, none, none⟩]) ≤ 33 / 100 ∧
    |((⟨some (1 / 5), some (1 / 10), some (3 / 20)⟩ : Coord3)).gx -
      ((⟨none, none, none⟩ : Coord3)).gx| ≤ 27 / 100 :=
  ⟨(pseudo_planner_bounded md5W "case-001" [⟨none, none, none⟩]).1,
    (pseudo_planner_bounded md5W "case-001" [⟨none, none, none⟩]).2.2.1,
    ((pseudo_planner_bounded md5W "case-001" [⟨none, none, none⟩]).2.1
      ((⟨some (1 / 5), some (1 / 10), some (3 / 20)⟩ : Coord3), (⟨none, none, none⟩ : Coord3))
      (by norm_num [pseudoPlannedImplants, stableSeed, md5W, Coord3.gx, Coord3.gy,
        Coord3.gz])).1⟩

/-- C4 — counterexample: two runs of the Validation Runner on the same
one-case dataset, differing only in the wall-clock durations the two
`perf_counter` reads measure (0 ms in the first run, 1 ms in the second),
write different CSV row lists: `execution_time_ms` is measured time, not a
value seeded from the case-id hash, so the output is not byte-identical
across reruns. -/
theorem csv_rows_differ_across_runs :
    runCsvRows md5W [caseW] (fun _ => 0) ≠ runCsvRows md5W [caseW] (fun _ => 1) := by
  intro h
  have h2 := congrArg (fun rows => rows.map (fun r : ValidationRow => r.executionTimeMs)) h
  simp only [runCsvRows, List.enum, caseRow, runFullPipeline, List.map_map, List.map_cons,
    List.map_nil, Function.comp] at h2
  exact absurd (List.cons.injEq .. ▸ h2) (by simp)

/-- C4 (amended) — the Validation Runner is deterministic in every CSV
column except `execution_time_ms`: two runs over the same loaded dataset
agree row-by-row on case id, rmse, min canal distance, guide-generated and
passed, whatever elapsed times the two runs measure; full byte-identity of
the CSV holds exactly when the measured durations also coincide, since the
remaining column is the measured duration itself. -/
theorem csv_deterministic_except_time (md5Hex8 : String → ℕ) (cases : List CaseEnv)
    (t1 t2 : ℕ → ℕ) :
    ((runCsvRows md5Hex8 cases t1).map rowWithoutTime =
      (runCsvRows md5Hex8 cases t2).map rowWithoutTime) ∧
    ((∀ ic ∈ List.enum cases, t1 ic.1 = t2 ic.1) →
      runCsvRows md5Hex8 cases t1 = runCsvRows md5Hex8 cases t2) := by
  constructor
  · unfold runCsvRows
    rw [List.map_map, List.map_map]
    exact List.map_congr_left (fun ic _ => rfl)
  · intro ht
    unfold runCsvRows
    exact List.map_congr_left (fun ic hic => by rw [ht ic hic])

/-- Witness for the amended C4: on the one-case dataset, runs timed 0 ms
and 1 ms agree on every column but the time, and two runs with identical
timings produce identical rows. -/
theorem csv_deterministic_except_time_witness :
    ((runCsvRows md5W [caseW] (fun _ => 0)).map rowWithoutTime =
      (runCsvRows md5W [caseW] (fun _ => 1)).map rowWithoutTime) ∧
    runCsvRows md5W [caseW] (fun _ => 0) = runCsvRows md5W [caseW] (fun _ => 0) :=
  ⟨(csv_deterministic_except_time md5W [caseW] (fun _ => 0) (fun _ => 1)).1,
    (csv_deterministic_except_time md5W [caseW] (fun _ => 0) (fun _ => 0)).2
      (fun _ _ => rfl)⟩

/-- The exit code of `run_validation` as a function of the produced rows:
always 0 or 1, and 1 exactly when the guide success rate does not exceed
the threshold or some row failed. -/
theorem runVerdict_spec_aux (rows : List ValidationRow) :
    (runVerdict rows = 0 ∨ runVerdict rows = 1) ∧
    (runVerdict rows = 1 ↔
      (guideSuccessRate rows ≤ THRESHOLDS.minGuideSuccessRate ∨
        ∃ r ∈ rows, r.passed = false)) := by
  simp only [runVerdict]
  by_cases h1 : THRESHOLDS.minGuideSuccessRate < guideSuccessRate rows
  · rw [if_neg (by simp [h1])]
    by_cases h2 : rows.any (fun r => !r.passed) = true
    · rw [if_pos h2]
      simp only [List.any_eq_true, Bool.not_eq_true'] at h2
      exact ⟨Or.inr rfl, ⟨fun _ => Or.inr h2, fun _ => rfl⟩⟩
    · rw [if_neg h2]
      refine ⟨Or.inl rfl, ?_, ?_⟩
      · intro h0
        exact absurd h0 (by norm_num)
      · intro hor
        rcases hor with hle | ⟨r, hr, hp⟩
        · exact absurd h1 (not_lt.2 hle)
        · exact absurd (List.any_eq_true.2 ⟨r, hr, by simp [hp]⟩) h2
  · rw [if_pos (by simp [h1])]
    exact ⟨Or.inr rfl, ⟨fun _ => Or.inl (not_lt.1 h1), fun _ => rfl⟩⟩

/-- C5 — run verdict: the exit code is 0 or 1, it is 1 exactly when the
guide-generation success rate is at most `min_guide_success_rate` or some
case row failed, and a case row passes exactly when its rmse is at most
`max_rmse`, its minimum canal distance is at least `min_canal_distance`,
and its guide was generated. -/
theorem run_verdict_spec (md5Hex8 : String → ℕ) (cases : List CaseEnv) (timer : ℕ → ℕ) :
    ((runValidation md5Hex8 cases timer).1 = 0 ∨ (runValidation md5Hex8 cases timer).1 = 1) ∧
    ((runValidation md5Hex8 cases timer).1 = 1 ↔
      (guideSuccessRate (runValidation md5Hex8 cases timer).2 ≤ THRESHOLDS.minGuideSuccessRate ∨
        ∃ r ∈ (runValidation md5Hex8 cases timer).2, r.passed = false)) ∧
    (∀ (c : CaseEnv) (elapsedMs : ℕ),
      (caseRow md5Hex8 c elapsedMs).passed = true ↔
        ((runFullPipeline md5Hex8 c elapsedMs).rmse ≤ ((THRESHOLDS.maxRmse : ℚ) : ℝ) ∧
          THRESHOLDS.minCanalDistance ≤ (runFullPipeline md5Hex8 c elapsedMs).minCanalDistance ∧
          (runFullPipeline md5Hex8 c elapsedMs).guideGenerated = true)) := by
  have hfst : (runValidation md5Hex8 cases timer).1 =
      runVerdict ((runValidation md5Hex8 cases timer).2) := rfl
  refine ⟨?_, ?_, ?_⟩
  · rw [hfst]
    exact (runVerdict_spec_aux ((runValidation md5Hex8 cases timer).2)).1
  · rw [hfst]
    exact (runVerdict_spec_aux ((runValidation md5Hex8 cases timer).2)).2
  · intro c elapsedMs
    unfold caseRow
    simp [Bool.and_eq_true, decide_eq_true_eq, and_assoc]

end DentalGuide
